import Mathlib

/-!
# Verification of `egui-wgpu`'s winit `Painter` glue

Shallow embedding of `src/crates/egui-wgpu/src/winit.rs`.

The file under verification is orchestration glue: a `Painter` holds an
optional `RenderState`, lazily initialized from the first surface's
supported-format list, and forwards per-frame paint data to the external
`renderer::Renderer` collaborator.

Modelling decisions:
* Rust `&mut self` methods become state-passing functions `Painter → ... → Painter`.
* The panicking index `surface.get_supported_formats(adapter)[0]` is embedded
  by returning `Option Painter`: `none` models the panic on an empty list.
* The external renderer collaborator (`crate::renderer`, whose source is not
  part of this slice) is instrumented: every call `paint_and_update_textures`
  makes into it is emitted, in source order, into a `List RendererCall` trace
  returned next to the updated painter.  The painter-visible state of the
  renderer is its constructor arguments.
* wgpu / egui handle types (`Device`, `Adapter`, `Queue`, `CommandEncoder`,
  `TextureView`, `egui::TextureId`, `egui::epaint::ImageDelta`,
  `egui::ClippedPrimitive`, `wgpu::TextureFormat`) are opaque to this module:
  it never inspects them, only stores and forwards them.  Each is embedded as
  a structure carrying an opaque tag so concrete witnesses can be built.
* `pixels_per_point : f32` and `width, height : u32` are only stored into the
  `ScreenDescriptor`, never computed with, so they are carried opaquely
  (the `u32`s as `Nat`; no arithmetic means no wrap-around to model).
-/

namespace EguiWgpu

/-- `wgpu::TextureFormat` — opaque to this module; the glue only copies it. -/
structure TextureFormat where
  tag : Nat
deriving DecidableEq, Repr

/-- `wgpu::Adapter` — opaque handle; only passed to the surface format query. -/
structure Adapter where
  tag : Nat
deriving DecidableEq, Repr

/-- `wgpu::Limits`, restricted to the single field this module reads. -/
structure Limits where
  max_texture_dimension_2d : Nat
deriving DecidableEq, Repr

/-- `wgpu::Device` — the module only calls `device.limits()` and forwards the
handle to the renderer. -/
structure Device where
  limits : Limits
deriving DecidableEq, Repr

/-- `wgpu::Surface` — the module only calls `get_supported_formats(adapter)`,
so the embedding is that query. -/
structure Surface where
  get_supported_formats : Adapter → List TextureFormat

/-- `wgpu::Queue` — opaque handle, only forwarded to the renderer. -/
structure Queue where
  tag : Nat
deriving DecidableEq, Repr

/-- `wgpu::CommandEncoder` — opaque; render passes are recorded into it by the
external renderer, which the trace captures. -/
structure CommandEncoder where
  tag : Nat
deriving DecidableEq, Repr

/-- `wgpu::TextureView` — opaque handle for the swapchain output view. -/
structure TextureView where
  tag : Nat
deriving DecidableEq, Repr

/-- `egui::TextureId` — opaque key of the texture delta. -/
structure TextureId where
  tag : Nat
deriving DecidableEq, Repr

/-- `egui::epaint::ImageDelta` — opaque payload of a texture addition. -/
structure ImageDelta where
  tag : Nat
deriving DecidableEq, Repr

/-- `egui::ClippedPrimitive` — opaque draw-call unit, only forwarded. -/
structure ClippedPrimitive where
  tag : Nat
deriving DecidableEq, Repr

/-- `f32` DPI scale, carried opaquely: this module stores it into the screen
descriptor and never computes with it. -/
structure PixelsPerPoint where
  tag : Nat
deriving DecidableEq, Repr

/-- `egui::TexturesDelta`: additions keyed by texture id (`set`) and removals
(`free`), both in order. -/
structure TexturesDelta where
  set : List (TextureId × ImageDelta)
  free : List TextureId
deriving DecidableEq, Repr

/-- `renderer::ScreenDescriptor { size_in_pixels: [u32; 2], pixels_per_point: f32 }`. -/
structure ScreenDescriptor where
  size_in_pixels : Nat × Nat
  pixels_per_point : PixelsPerPoint
deriving DecidableEq, Repr

/-- The depth-stencil attachment argument of `Renderer::render`; this module
always passes `None` for it, so no constructor of the payload is ever used. -/
structure DepthStencil where
  tag : Nat
deriving DecidableEq, Repr

/-- Modelled from the spec: `renderer::Renderer`, the external collaborator
(its source, `src/crates/egui-wgpu/src/renderer.rs`, is not part of this
slice).  The spec says the renderer is "constructed via the external
collaborator's constructor" with the selected target format, so the
painter-visible state is the constructor's arguments; the call site
`Renderer::new(&device, target_format, 1, 0)` supplies two further numeric
arguments, recorded positionally. -/
structure Renderer where
  target_format : TextureFormat
  ctor_arg3 : Nat
  ctor_arg4 : Nat
deriving DecidableEq, Repr

/-- Modelled from the spec: `renderer::Renderer::new(device, target_format, 1, 0)`
records its arguments; the device handle is opaque and not retained by the
painter-visible state. -/
def Renderer.new (_device : Device) (target_format : TextureFormat)
    (a3 : Nat) (a4 : Nat) : Renderer :=
  { target_format := target_format, ctor_arg3 := a3, ctor_arg4 := a4 }

/-- `RenderState { renderer: Arc<RwLock<renderer::Renderer>> }`.  The
`Arc<RwLock<..>>` wrapper is ownership/locking plumbing; the state it guards
is the `Renderer`.  Lock acquisitions are visible in the call trace ordering
of `paint_and_update_textures`. -/
structure RenderState where
  renderer : Renderer
deriving DecidableEq, Repr

/-- `Painter { render_state: Option<RenderState> }`.  The field accessor is
also the embedding of the method `Painter::render_state()`, which returns
`self.render_state.as_ref().cloned()`, i.e. the option itself. -/
structure Painter where
  render_state : Option RenderState
deriving DecidableEq, Repr

/-- `Painter::new()`: `Self { render_state: None }`. -/
def Painter.new : Painter :=
  { render_state := none }

/-- One call from `paint_and_update_textures` into the external renderer,
with the arguments the source passes (opaque handles included). -/
inductive RendererCall where
  | update_texture (device : Device) (queue : Queue)
      (id : TextureId) (image_delta : ImageDelta)
  | update_buffers (device : Device) (queue : Queue)
      (clipped_primitives : List ClippedPrimitive)
      (screen_descriptor : ScreenDescriptor)
  | render (encoder : CommandEncoder) (output_view : TextureView)
      (clipped_primitives : List ClippedPrimitive)
      (screen_descriptor : ScreenDescriptor)
      (depth_stencil : Option DepthStencil)
  | free_texture (id : TextureId)
deriving DecidableEq, Repr

/-- Upload-phase calls: texture additions and the buffer upload. -/
def RendererCall.isUpload : RendererCall → Bool
  | .update_texture .. => true
  | .update_buffers .. => true
  | .render .. => false
  | .free_texture .. => false

/-- Render-pass-recording call. -/
def RendererCall.isRender : RendererCall → Bool
  | .update_texture .. => false
  | .update_buffers .. => false
  | .render .. => true
  | .free_texture .. => false

/-- Texture-addition call (`Renderer::update_texture`). -/
def RendererCall.isTextureAdd : RendererCall → Bool
  | .update_texture .. => true
  | .update_buffers .. => false
  | .render .. => false
  | .free_texture .. => false

/-- Texture-free call (`Renderer::free_texture`). -/
def RendererCall.isFree : RendererCall → Bool
  | .update_texture .. => false
  | .update_buffers .. => false
  | .render .. => false
  | .free_texture .. => true

/-- `Painter::init_render_state(&self, device, target_format)`: builds the
renderer via `Renderer::new(&device, target_format, 1, 0)` and wraps it. -/
def Painter.init_render_state (_self : Painter) (device : Device)
    (target_format : TextureFormat) : RenderState :=
  { renderer := Renderer.new device target_format 1 0 }

/-- `Painter::ensure_render_state_for_surface(&mut self, device, adapter, surface)`:
if `render_state` is `None`, take `surface.get_supported_formats(adapter)[0]`
(a panicking index — `none` of the result models that panic on an empty list)
and store `init_render_state` of it; otherwise do nothing. -/
def Painter.ensure_render_state_for_surface (self : Painter) (device : Device)
    (adapter : Adapter) (surface : Surface) : Option Painter :=
  match self.render_state with
  | some _ => some self
  | none =>
    match surface.get_supported_formats adapter with
    | [] => none
    | swapchain_format :: _ =>
      let rs := self.init_render_state device swapchain_format
      some { self with render_state := some rs }

/-- `Painter::set_window(&mut self, device, adapter, surface)`: delegates to
`ensure_render_state_for_surface`.  Note the source signature requires a
surface (`&Surface`, not an `Option`). -/
def Painter.set_window (self : Painter) (device : Device) (adapter : Adapter)
    (surface : Surface) : Option Painter :=
  self.ensure_render_state_for_surface device adapter surface

/-- `Painter::max_texture_side(&self, device)`:
`Some(device.limits().max_texture_dimension_2d as usize)`. -/
def Painter.max_texture_side (_self : Painter) (device : Device) : Option Nat :=
  some device.limits.max_texture_dimension_2d

/-- `Painter::paint_and_update_textures(..)`: early-return if `render_state`
is absent; otherwise build the screen descriptor and call the renderer —
`update_texture` per delta addition, `update_buffers`, `render` (into the
supplied encoder, targeting the output view, depth-stencil `None`), then
`free_texture` per delta removal.  The instrumented calls are returned as a
trace next to the (unchanged at painter level) state. -/
def Painter.paint_and_update_textures (self : Painter)
    (pixels_per_point : PixelsPerPoint)
    (clipped_primitives : List ClippedPrimitive)
    (textures_delta : TexturesDelta)
    (device : Device) (encoder : CommandEncoder) (queue : Queue)
    (width : Nat) (height : Nat)
    (output_view : TextureView) : Painter × List RendererCall :=
  match self.render_state with
  | none => (self, [])
  | some _render_state =>
    let screen_descriptor : ScreenDescriptor :=
      { size_in_pixels := (width, height), pixels_per_point := pixels_per_point }
    let upload_calls :=
      (textures_delta.set.map fun p =>
        RendererCall.update_texture device queue p.1 p.2)
        ++ [RendererCall.update_buffers device queue clipped_primitives
              screen_descriptor]
    let render_call :=
      RendererCall.render encoder output_view clipped_primitives
        screen_descriptor none
    let free_calls := textures_delta.free.map RendererCall.free_texture
    (self, upload_calls ++ [render_call] ++ free_calls)

/-- `Painter::destroy(&mut self)`: a `TODO` no-op in the source. -/
def Painter.destroy (self : Painter) : Painter × List RendererCall :=
  (self, [])

/-! ## Theorems -/

/-- C5: for every freshly constructed Painter (produced by the constructor,
before any `set_window` call), `render_state()` returns absent (`None`).  The
constructor consumes no GPU handle at all — visible from `Painter.new` taking
no device, adapter or surface argument — so it performs no GPU work. -/
theorem new_painter_render_state_absent :
    Painter.new.render_state = none := rfl

/-- C10: `max_texture_side` always returns `Some` of the device's maximum 2D
texture dimension, for every device and every Painter state (including before
any `set_window` call), and its result does not depend on the Painter's render
state (it neither reads nor modifies it). -/
theorem max_texture_side_always_some (p q : Painter) (device : Device) :
    p.max_texture_side device = some device.limits.max_texture_dimension_2d
    ∧ p.max_texture_side device = q.max_texture_side device :=
  ⟨rfl, rfl⟩

/-- C8: `destroy()` is a no-op: for every Painter (present render state
included) it leaves the entire state unchanged and makes no renderer call. -/
theorem destroy_is_noop (p : Painter) : p.destroy = (p, []) := rfl

/-- C3: for every Painter whose render state is absent,
`paint_and_update_textures` returns immediately: no renderer call of any kind
(empty trace) and the Painter's state unchanged.  (The embedding is total, so
the early return also shows the call cannot panic.) -/
theorem paint_without_render_state_is_noop (p : Painter)
    (pixels_per_point : PixelsPerPoint)
    (clipped_primitives : List ClippedPrimitive) (textures_delta : TexturesDelta)
    (device : Device) (encoder : CommandEncoder) (queue : Queue)
    (width height : Nat) (output_view : TextureView)
    (h : p.render_state = none) :
    p.paint_and_update_textures pixels_per_point clipped_primitives
      textures_delta device encoder queue width height output_view = (p, []) := by
  simp [Painter.paint_and_update_textures, h]

/-- Witness for C3 at a concrete input: a fresh Painter painted with a
one-element delta and one primitive does nothing. -/
theorem paint_without_render_state_is_noop_witness :
    Painter.new.render_state = none
    ∧ Painter.new.paint_and_update_textures ⟨1⟩ [⟨2⟩] ⟨[(⟨3⟩, ⟨4⟩)], [⟨5⟩]⟩
        ⟨⟨6⟩⟩ ⟨7⟩ ⟨8⟩ 9 10 ⟨11⟩ = (Painter.new, []) :=
  ⟨rfl, paint_without_render_state_is_noop Painter.new ⟨1⟩ [⟨2⟩] ⟨[(⟨3⟩, ⟨4⟩)], [⟨5⟩]⟩
    ⟨⟨6⟩⟩ ⟨7⟩ ⟨8⟩ 9 10 ⟨11⟩ rfl⟩

/-- C1: for every surface whose supported-format query against the given
adapter returns a non-empty ordered list, `ensure_render_state_for_surface`
on a Painter with no render state succeeds and stores a render state whose
Renderer was constructed (via `Renderer::new(device, format, 1, 0)`) with the
FIRST format of that list as the target format. -/
theorem ensure_render_state_selects_first_format (p : Painter) (device : Device)
    (adapter : Adapter) (surface : Surface)
    (f : TextureFormat) (rest : List TextureFormat)
    (hnone : p.render_state = none)
    (hformats : surface.get_supported_formats adapter = f :: rest) :
    p.ensure_render_state_for_surface device adapter surface =
      some { render_state := some { renderer := Renderer.new device f 1 0 } } := by
  simp [Painter.ensure_render_state_for_surface, hnone, hformats,
    Painter.init_render_state]

/-- Witness for C1: a surface exposing formats `[FormatA, FormatB]`
(embedded as tags 1 and 2) yields a renderer built with `FormatA`. -/
theorem ensure_render_state_selects_first_format_witness :
    Painter.new.render_state = none
    ∧ (Surface.mk fun _ => [⟨1⟩, ⟨2⟩]).get_supported_formats ⟨0⟩ = [⟨1⟩, ⟨2⟩]
    ∧ Painter.new.ensure_render_state_for_surface ⟨⟨100⟩⟩ ⟨0⟩ ⟨fun _ => [⟨1⟩, ⟨2⟩]⟩ =
        some { render_state := some { renderer := Renderer.new ⟨⟨100⟩⟩ ⟨1⟩ 1 0 } } :=
  ⟨rfl, rfl,
    ensure_render_state_selects_first_format Painter.new ⟨⟨100⟩⟩ ⟨0⟩
      ⟨fun _ => [⟨1⟩, ⟨2⟩]⟩ ⟨1⟩ [⟨2⟩] rfl rfl⟩

/-- C9: if the surface's supported-format query for the given adapter returns
an empty list, `ensure_render_state_for_surface` — and hence `set_window` —
on an uninitialized Painter panics (the unguarded `[0]` index, embedded as the
`none` outcome). -/
theorem ensure_render_state_empty_formats_panics (p : Painter) (device : Device)
    (adapter : Adapter) (surface : Surface)
    (hnone : p.render_state = none)
    (hempty : surface.get_supported_formats adapter = []) :
    p.ensure_render_state_for_surface device adapter surface = none
    ∧ p.set_window device adapter surface = none := by
  constructor <;>
    simp [Painter.set_window, Painter.ensure_render_state_for_surface, hnone, hempty]

/-- Witness for C9: a fresh Painter attached to a surface reporting no
supported formats hits the panic branch. -/
theorem ensure_render_state_empty_formats_panics_witness :
    Painter.new.render_state = none
    ∧ (Surface.mk fun _ => []).get_supported_formats ⟨0⟩ = []
    ∧ Painter.new.ensure_render_state_for_surface ⟨⟨3⟩⟩ ⟨0⟩ ⟨fun _ => []⟩ = none
    ∧ Painter.new.set_window ⟨⟨3⟩⟩ ⟨0⟩ ⟨fun _ => []⟩ = none :=
  ⟨rfl, rfl,
    (ensure_render_state_empty_formats_panics Painter.new ⟨⟨3⟩⟩ ⟨0⟩
      ⟨fun _ => []⟩ rfl rfl).1,
    (ensure_render_state_empty_formats_panics Painter.new ⟨⟨3⟩⟩ ⟨0⟩
      ⟨fun _ => []⟩ rfl rfl).2⟩

/-- C2: once the render state is present it is never changed or cleared:
`set_window` (that is, `ensure_render_state_for_surface`) with ANY device,
adapter or surface returns the Painter unchanged; `paint_and_update_textures`
and `destroy` also leave the Painter (hence its present render state)
unchanged.  No Painter operation returns a state with the render state
absent again. -/
theorem render_state_never_reverts (p : Painter) (rs : RenderState)
    (device device2 : Device) (adapter : Adapter) (surface : Surface)
    (pixels_per_point : PixelsPerPoint)
    (clipped_primitives : List ClippedPrimitive) (textures_delta : TexturesDelta)
    (encoder : CommandEncoder) (queue : Queue)
    (width height : Nat) (output_view : TextureView)
    (h : p.render_state = some rs) :
    p.set_window device adapter surface = some p
    ∧ (p.paint_and_update_textures pixels_per_point clipped_primitives
        textures_delta device2 encoder queue width height output_view).1 = p
    ∧ p.destroy.1 = p := by
  refine ⟨?_, ?_, rfl⟩
  · simp [Painter.set_window, Painter.ensure_render_state_for_surface, h]
  · simp [Painter.paint_and_update_textures, h]

/-- Witness for C2: an initialized Painter is untouched by a later
`set_window` with a different surface (different format list) and by a paint
call. -/
theorem render_state_never_reverts_witness :
    ({ render_state := some { renderer := ⟨⟨5⟩, 1, 0⟩ } } : Painter).render_state
        = some { renderer := ⟨⟨5⟩, 1, 0⟩ }
    ∧ ({ render_state := some { renderer := ⟨⟨5⟩, 1, 0⟩ } } : Painter).set_window
          ⟨⟨0⟩⟩ ⟨0⟩ ⟨fun _ => [⟨9⟩]⟩
        = some { render_state := some { renderer := ⟨⟨5⟩, 1, 0⟩ } }
    ∧ (Painter.paint_and_update_textures
          { render_state := some { renderer := ⟨⟨5⟩, 1, 0⟩ } }
          ⟨1⟩ [] ⟨[], []⟩ ⟨⟨0⟩⟩ ⟨2⟩ ⟨3⟩ 4 5 ⟨6⟩).1
        = { render_state := some { renderer := ⟨⟨5⟩, 1, 0⟩ } }
    ∧ ({ render_state := some { renderer := ⟨⟨5⟩, 1, 0⟩ } } : Painter).destroy.1
        = { render_state := some { renderer := ⟨⟨5⟩, 1, 0⟩ } } :=
  ⟨rfl,
    (render_state_never_reverts _ _ ⟨⟨0⟩⟩ ⟨⟨0⟩⟩ ⟨0⟩ ⟨fun _ => [⟨9⟩]⟩ ⟨1⟩ [] ⟨[], []⟩
      ⟨2⟩ ⟨3⟩ 4 5 ⟨6⟩ rfl).1,
    (render_state_never_reverts _ _ ⟨⟨0⟩⟩ ⟨⟨0⟩⟩ ⟨0⟩ ⟨fun _ => [⟨9⟩]⟩ ⟨1⟩ [] ⟨[], []⟩
      ⟨2⟩ ⟨3⟩ 4 5 ⟨6⟩ rfl).2.1,
    (render_state_never_reverts _ _ ⟨⟨0⟩⟩ ⟨⟨0⟩⟩ ⟨0⟩ ⟨fun _ => [⟨9⟩]⟩ ⟨1⟩ [] ⟨[], []⟩
      ⟨2⟩ ⟨3⟩ 4 5 ⟨6⟩ rfl).2.2⟩

/-- C4: within one `paint_and_update_textures` call on an initialized Painter,
the renderer calls occur in strict order: every texture addition of the delta
and the buffer upload first, then exactly one render-pass recording (into the
supplied encoder, targeting the given output view, with no depth-stencil
attachment), and only then every texture free of the delta.  The trace `t` of
the call equals the adds-then-upload, render, frees concatenation; positions
up to the set length hold only upload-phase calls, position `set.length + 1`
holds the render call, and all later positions hold only free calls. -/
theorem paint_renderer_call_order (p : Painter) (rs : RenderState)
    (pixels_per_point : PixelsPerPoint)
    (clipped_primitives : List ClippedPrimitive) (textures_delta : TexturesDelta)
    (device : Device) (encoder : CommandEncoder) (queue : Queue)
    (width height : Nat) (output_view : TextureView)
    (h : p.render_state = some rs) :
    ∀ t, t = (p.paint_and_update_textures pixels_per_point clipped_primitives
        textures_delta device encoder queue width height output_view).2 →
      t = (textures_delta.set.map fun e =>
              RendererCall.update_texture device queue e.1 e.2)
          ++ [RendererCall.update_buffers device queue clipped_primitives
                ⟨(width, height), pixels_per_point⟩]
          ++ [RendererCall.render encoder output_view clipped_primitives
                ⟨(width, height), pixels_per_point⟩ none]
          ++ textures_delta.free.map RendererCall.free_texture
      ∧ (∀ c ∈ t.take (textures_delta.set.length + 1), c.isUpload = true)
      ∧ t[textures_delta.set.length + 1]?
          = some (RendererCall.render encoder output_view clipped_primitives
              ⟨(width, height), pixels_per_point⟩ none)
      ∧ (∀ c ∈ t.drop (textures_delta.set.length + 2), c.isFree = true)
      ∧ t.length = textures_delta.set.length + 2 + textures_delta.free.length := by
  intro t ht
  have htrace : t =
      (textures_delta.set.map fun e =>
          RendererCall.update_texture device queue e.1 e.2)
        ++ [RendererCall.update_buffers device queue clipped_primitives
              ⟨(width, height), pixels_per_point⟩]
        ++ [RendererCall.render encoder output_view clipped_primitives
              ⟨(width, height), pixels_per_point⟩ none]
        ++ textures_delta.free.map RendererCall.free_texture := by
    rw [ht]
    simp [Painter.paint_and_update_textures, h]
  have hcons : t =
      (textures_delta.set.map fun e =>
          RendererCall.update_texture device queue e.1 e.2)
        ++ (RendererCall.update_buffers device queue clipped_primitives
              ⟨(width, height), pixels_per_point⟩
            :: RendererCall.render encoder output_view clipped_primitives
              ⟨(width, height), pixels_per_point⟩ none
            :: textures_delta.free.map RendererCall.free_texture) := by
    rw [htrace]
    simp [List.append_assoc]
  refine ⟨htrace, ?_, ?_, ?_, ?_⟩
  · intro c hc
    rw [hcons] at hc
    generalize textures_delta.set = s at hc
    induction s with
    | nil =>
      simp only [List.map_nil, List.nil_append, List.length_nil,
        List.take_succ_cons, List.take_zero] at hc
      rw [List.mem_singleton.mp hc]
      rfl
    | cons head tail ih =>
      simp only [List.map_cons, List.cons_append, List.length_cons,
        List.take_succ_cons] at hc
      rcases List.mem_cons.mp hc with he | hmem
      · rw [he]; rfl
      · exact ih hmem
  · rw [hcons]
    generalize textures_delta.set = s
    induction s with
    | nil =>
      simp only [List.map_nil, List.nil_append, List.length_nil,
        List.getElem?_cons_succ, List.getElem?_cons_zero]
    | cons head tail ih =>
      simpa only [List.map_cons, List.cons_append, List.length_cons,
        List.getElem?_cons_succ] using ih
  · intro c hc
    rw [hcons,
      show textures_delta.set.length + 2 = textures_delta.set.length + 1 + 1
        from rfl] at hc
    generalize textures_delta.set = s at hc
    induction s with
    | nil =>
      simp only [List.map_nil, List.nil_append, List.length_nil,
        List.drop_succ_cons, List.drop_zero] at hc
      rcases List.mem_map.mp hc with ⟨i, _, hi⟩
      rw [← hi]; rfl
    | cons head tail ih =>
      simp only [List.map_cons, List.cons_append, List.length_cons,
        List.drop_succ_cons] at hc
      exact ih hc
  · rw [htrace]
    simp [List.length_append, List.length_map]
    omega

/-- Witness for C4 at a concrete input: one texture addition, one primitive,
one texture free; the trace is exactly add, upload, render, free. -/
theorem paint_renderer_call_order_witness :
    ({ render_state := some { renderer := ⟨⟨7⟩, 1, 0⟩ } } : Painter).render_state
        = some { renderer := ⟨⟨7⟩, 1, 0⟩ }
    ∧ [RendererCall.update_texture ⟨⟨6⟩⟩ ⟨8⟩ ⟨3⟩ ⟨4⟩,
        RendererCall.update_buffers ⟨⟨6⟩⟩ ⟨8⟩ [⟨2⟩] ⟨(9, 10), ⟨1⟩⟩,
        RendererCall.render ⟨7⟩ ⟨11⟩ [⟨2⟩] ⟨(9, 10), ⟨1⟩⟩ none,
        RendererCall.free_texture ⟨5⟩]
      = (Painter.paint_and_update_textures
          { render_state := some { renderer := ⟨⟨7⟩, 1, 0⟩ } }
          ⟨1⟩ [⟨2⟩] ⟨[(⟨3⟩, ⟨4⟩)], [⟨5⟩]⟩ ⟨⟨6⟩⟩ ⟨7⟩ ⟨8⟩ 9 10 ⟨11⟩).2
    ∧ ([RendererCall.update_texture ⟨⟨6⟩⟩ ⟨8⟩ ⟨3⟩ ⟨4⟩,
         RendererCall.update_buffers ⟨⟨6⟩⟩ ⟨8⟩ [⟨2⟩] ⟨(9, 10), ⟨1⟩⟩,
         RendererCall.render ⟨7⟩ ⟨11⟩ [⟨2⟩] ⟨(9, 10), ⟨1⟩⟩ none,
         RendererCall.free_texture ⟨5⟩]
        = [RendererCall.update_texture ⟨⟨6⟩⟩ ⟨8⟩ ⟨3⟩ ⟨4⟩,
           RendererCall.update_buffers ⟨⟨6⟩⟩ ⟨8⟩ [⟨2⟩] ⟨(9, 10), ⟨1⟩⟩,
           RendererCall.render ⟨7⟩ ⟨11⟩ [⟨2⟩] ⟨(9, 10), ⟨1⟩⟩ none,
           RendererCall.free_texture ⟨5⟩]
      ∧ (∀ c ∈ [RendererCall.update_texture ⟨⟨6⟩⟩ ⟨8⟩ ⟨3⟩ ⟨4⟩,
            RendererCall.update_buffers ⟨⟨6⟩⟩ ⟨8⟩ [⟨2⟩] ⟨(9, 10), ⟨1⟩⟩,
            RendererCall.render ⟨7⟩ ⟨11⟩ [⟨2⟩] ⟨(9, 10), ⟨1⟩⟩ none,
            RendererCall.free_texture ⟨5⟩].take 2, c.isUpload = true)
      ∧ [RendererCall.update_texture ⟨⟨6⟩⟩ ⟨8⟩ ⟨3⟩ ⟨4⟩,
          RendererCall.update_buffers ⟨⟨6⟩⟩ ⟨8⟩ [⟨2⟩] ⟨(9, 10), ⟨1⟩⟩,
          RendererCall.render ⟨7⟩ ⟨11⟩ [⟨2⟩] ⟨(9, 10), ⟨1⟩⟩ none,
          RendererCall.free_texture ⟨5⟩][2]?
          = some (RendererCall.render ⟨7⟩ ⟨11⟩ [⟨2⟩] ⟨(9, 10), ⟨1⟩⟩ none)
      ∧ (∀ c ∈ [RendererCall.update_texture ⟨⟨6⟩⟩ ⟨8⟩ ⟨3⟩ ⟨4⟩,
            RendererCall.update_buffers ⟨⟨6⟩⟩ ⟨8⟩ [⟨2⟩] ⟨(9, 10), ⟨1⟩⟩,
            RendererCall.render ⟨7⟩ ⟨11⟩ [⟨2⟩] ⟨(9, 10), ⟨1⟩⟩ none,
            RendererCall.free_texture ⟨5⟩].drop 3, c.isFree = true)
      ∧ ([RendererCall.update_texture ⟨⟨6⟩⟩ ⟨8⟩ ⟨3⟩ ⟨4⟩,
           RendererCall.update_buffers ⟨⟨6⟩⟩ ⟨8⟩ [⟨2⟩] ⟨(9, 10), ⟨1⟩⟩,
           RendererCall.render ⟨7⟩ ⟨11⟩ [⟨2⟩] ⟨(9, 10), ⟨1⟩⟩ none,
           RendererCall.free_texture ⟨5⟩] : List RendererCall).length = 4) :=
  ⟨rfl,
    rfl,
    paint_renderer_call_order
      { render_state := some { renderer := ⟨⟨7⟩, 1, 0⟩ } }
      { renderer := ⟨⟨7⟩, 1, 0⟩ }
      ⟨1⟩ [⟨2⟩] ⟨[(⟨3⟩, ⟨4⟩)], [⟨5⟩]⟩ ⟨⟨6⟩⟩ ⟨7⟩ ⟨8⟩ 9 10 ⟨11⟩ rfl
      [RendererCall.update_texture ⟨⟨6⟩⟩ ⟨8⟩ ⟨3⟩ ⟨4⟩,
       RendererCall.update_buffers ⟨⟨6⟩⟩ ⟨8⟩ [⟨2⟩] ⟨(9, 10), ⟨1⟩⟩,
       RendererCall.render ⟨7⟩ ⟨11⟩ [⟨2⟩] ⟨(9, 10), ⟨1⟩⟩ none,
       RendererCall.free_texture ⟨5⟩] rfl⟩

/-- C6: after one successful attachment, two paint calls with empty texture
deltas and empty primitive lists each record exactly one render call and zero
texture-add and zero texture-free calls, and the Painter state is unchanged
by (so in particular not reset between) the two calls. -/
theorem attach_once_paint_twice_empty (device d1 d2 : Device) (adapter : Adapter)
    (surface : Surface) (p1 : Painter)
    (ppp1 ppp2 : PixelsPerPoint) (e1 e2 : CommandEncoder) (q1 q2 : Queue)
    (w1 h1 w2 h2 : Nat) (v1 v2 : TextureView)
    (hattach : Painter.new.set_window device adapter surface = some p1) :
    (p1.paint_and_update_textures ppp1 [] ⟨[], []⟩ d1 e1 q1 w1 h1 v1).1 = p1
    ∧ ((p1.paint_and_update_textures ppp1 [] ⟨[], []⟩ d1 e1 q1 w1 h1 v1).1.paint_and_update_textures
        ppp2 [] ⟨[], []⟩ d2 e2 q2 w2 h2 v2).1 = p1
    ∧ ((p1.paint_and_update_textures ppp1 [] ⟨[], []⟩ d1 e1 q1 w1 h1 v1).2.countP
        RendererCall.isRender = 1
      ∧ (p1.paint_and_update_textures ppp1 [] ⟨[], []⟩ d1 e1 q1 w1 h1 v1).2.countP
        RendererCall.isTextureAdd = 0
      ∧ (p1.paint_and_update_textures ppp1 [] ⟨[], []⟩ d1 e1 q1 w1 h1 v1).2.countP
        RendererCall.isFree = 0)
    ∧ (((p1.paint_and_update_textures ppp1 [] ⟨[], []⟩ d1 e1 q1 w1 h1 v1).1.paint_and_update_textures
          ppp2 [] ⟨[], []⟩ d2 e2 q2 w2 h2 v2).2.countP RendererCall.isRender = 1
      ∧ ((p1.paint_and_update_textures ppp1 [] ⟨[], []⟩ d1 e1 q1 w1 h1 v1).1.paint_and_update_textures
          ppp2 [] ⟨[], []⟩ d2 e2 q2 w2 h2 v2).2.countP RendererCall.isTextureAdd = 0
      ∧ ((p1.paint_and_update_textures ppp1 [] ⟨[], []⟩ d1 e1 q1 w1 h1 v1).1.paint_and_update_textures
          ppp2 [] ⟨[], []⟩ d2 e2 q2 w2 h2 v2).2.countP RendererCall.isFree = 0) := by
  obtain ⟨rs, hrs⟩ : ∃ rs, p1.render_state = some rs := by
    cases hf : surface.get_supported_formats adapter with
    | nil =>
      rw [Painter.set_window, Painter.ensure_render_state_for_surface] at hattach
      simp [Painter.new, hf] at hattach
    | cons f rest =>
      rw [Painter.set_window, Painter.ensure_render_state_for_surface] at hattach
      simp only [Painter.new, hf, Option.some.injEq] at hattach
      exact ⟨_, by rw [← hattach]⟩
  have hpaint1 : p1.paint_and_update_textures ppp1 [] ⟨[], []⟩ d1 e1 q1 w1 h1 v1
      = (p1, [RendererCall.update_buffers d1 q1 [] ⟨(w1, h1), ppp1⟩,
              RendererCall.render e1 v1 [] ⟨(w1, h1), ppp1⟩ none]) := by
    simp [Painter.paint_and_update_textures, hrs]
  have hpaint2 : p1.paint_and_update_textures ppp2 [] ⟨[], []⟩ d2 e2 q2 w2 h2 v2
      = (p1, [RendererCall.update_buffers d2 q2 [] ⟨(w2, h2), ppp2⟩,
              RendererCall.render e2 v2 [] ⟨(w2, h2), ppp2⟩ none]) := by
    simp [Painter.paint_and_update_textures, hrs]
  rw [hpaint1]
  simp only
  rw [hpaint2]
  simp [List.countP_cons, List.countP_nil, RendererCall.isRender,
    RendererCall.isTextureAdd, RendererCall.isFree]

/-- Witness for C6: a concrete attach-then-paint-twice run, with a one-format
surface and fresh handles for each frame. -/
theorem attach_once_paint_twice_empty_witness :
    Painter.new.set_window ⟨⟨1⟩⟩ ⟨2⟩ ⟨fun _ => [⟨3⟩]⟩
        = some { render_state := some { renderer := Renderer.new ⟨⟨1⟩⟩ ⟨3⟩ 1 0 } }
    ∧ (Painter.paint_and_update_textures
          { render_state := some { renderer := Renderer.new ⟨⟨1⟩⟩ ⟨3⟩ 1 0 } }
          ⟨4⟩ [] ⟨[], []⟩ ⟨⟨1⟩⟩ ⟨5⟩ ⟨6⟩ 7 8 ⟨9⟩).1
        = { render_state := some { renderer := Renderer.new ⟨⟨1⟩⟩ ⟨3⟩ 1 0 } }
    ∧ ((Painter.paint_and_update_textures
          { render_state := some { renderer := Renderer.new ⟨⟨1⟩⟩ ⟨3⟩ 1 0 } }
          ⟨4⟩ [] ⟨[], []⟩ ⟨⟨1⟩⟩ ⟨5⟩ ⟨6⟩ 7 8 ⟨9⟩).1.paint_and_update_textures
          ⟨14⟩ [] ⟨[], []⟩ ⟨⟨1⟩⟩ ⟨15⟩ ⟨16⟩ 17 18 ⟨19⟩).1
        = { render_state := some { renderer := Renderer.new ⟨⟨1⟩⟩ ⟨3⟩ 1 0 } }
    ∧ ((Painter.paint_and_update_textures
          { render_state := some { renderer := Renderer.new ⟨⟨1⟩⟩ ⟨3⟩ 1 0 } }
          ⟨4⟩ [] ⟨[], []⟩ ⟨⟨1⟩⟩ ⟨5⟩ ⟨6⟩ 7 8 ⟨9⟩).2.countP RendererCall.isRender = 1
      ∧ (Painter.paint_and_update_textures
          { render_state := some { renderer := Renderer.new ⟨⟨1⟩⟩ ⟨3⟩ 1 0 } }
          ⟨4⟩ [] ⟨[], []⟩ ⟨⟨1⟩⟩ ⟨5⟩ ⟨6⟩ 7 8 ⟨9⟩).2.countP RendererCall.isTextureAdd = 0
      ∧ (Painter.paint_and_update_textures
          { render_state := some { renderer := Renderer.new ⟨⟨1⟩⟩ ⟨3⟩ 1 0 } }
          ⟨4⟩ [] ⟨[], []⟩ ⟨⟨1⟩⟩ ⟨5⟩ ⟨6⟩ 7 8 ⟨9⟩).2.countP RendererCall.isFree = 0)
    ∧ (((Painter.paint_and_update_textures
          { render_state := some { renderer := Renderer.new ⟨⟨1⟩⟩ ⟨3⟩ 1 0 } }
          ⟨4⟩ [] ⟨[], []⟩ ⟨⟨1⟩⟩ ⟨5⟩ ⟨6⟩ 7 8 ⟨9⟩).1.paint_and_update_textures
          ⟨14⟩ [] ⟨[], []⟩ ⟨⟨1⟩⟩ ⟨15⟩ ⟨16⟩ 17 18 ⟨19⟩).2.countP RendererCall.isRender = 1
      ∧ ((Painter.paint_and_update_textures
          { render_state := some { renderer := Renderer.new ⟨⟨1⟩⟩ ⟨3⟩ 1 0 } }
          ⟨4⟩ [] ⟨[], []⟩ ⟨⟨1⟩⟩ ⟨5⟩ ⟨6⟩ 7 8 ⟨9⟩).1.paint_and_update_textures
          ⟨14⟩ [] ⟨[], []⟩ ⟨⟨1⟩⟩ ⟨15⟩ ⟨16⟩ 17 18 ⟨19⟩).2.countP RendererCall.isTextureAdd = 0
      ∧ ((Painter.paint_and_update_textures
          { render_state := some { renderer := Renderer.new ⟨⟨1⟩⟩ ⟨3⟩ 1 0 } }
          ⟨4⟩ [] ⟨[], []⟩ ⟨⟨1⟩⟩ ⟨5⟩ ⟨6⟩ 7 8 ⟨9⟩).1.paint_and_update_textures
          ⟨14⟩ [] ⟨[], []⟩ ⟨⟨1⟩⟩ ⟨15⟩ ⟨16⟩ 17 18 ⟨19⟩).2.countP RendererCall.isFree = 0) :=
  ⟨rfl,
    attach_once_paint_twice_empty ⟨⟨1⟩⟩ ⟨⟨1⟩⟩ ⟨⟨1⟩⟩ ⟨2⟩ ⟨fun _ => [⟨3⟩]⟩
      { render_state := some { renderer := Renderer.new ⟨⟨1⟩⟩ ⟨3⟩ 1 0 } }
      ⟨4⟩ ⟨14⟩ ⟨5⟩ ⟨15⟩ ⟨6⟩ ⟨16⟩ 7 8 17 18 ⟨9⟩ ⟨19⟩ rfl⟩

/-- C7 (refuting theorem): the `set_window` of the source cannot clear a
render state.  Its signature requires a present surface, and after a first
attachment every further `set_window` — here one whose surface reports NO
supported formats, the closest representable stand-in for an absent surface —
leaves the render state present, and a subsequent
`paint_and_update_textures` still records a render pass rather than
degrading to a no-op. -/
theorem set_window_cannot_clear_render_state :
    Painter.new.set_window ⟨⟨4⟩⟩ ⟨0⟩ ⟨fun _ => [⟨1⟩]⟩
        = some { render_state := some { renderer := Renderer.new ⟨⟨4⟩⟩ ⟨1⟩ 1 0 } }
    ∧ Painter.set_window
        { render_state := some { renderer := Renderer.new ⟨⟨4⟩⟩ ⟨1⟩ 1 0 } }
        ⟨⟨4⟩⟩ ⟨0⟩ ⟨fun _ => []⟩
        = some { render_state := some { renderer := Renderer.new ⟨⟨4⟩⟩ ⟨1⟩ 1 0 } }
    ∧ (Painter.paint_and_update_textures
        { render_state := some { renderer := Renderer.new ⟨⟨4⟩⟩ ⟨1⟩ 1 0 } }
        ⟨0⟩ [] ⟨[], []⟩ ⟨⟨4⟩⟩ ⟨0⟩ ⟨0⟩ 0 0 ⟨0⟩).2.countP RendererCall.isRender
        = 1 :=
  ⟨rfl, rfl, rfl⟩

end EguiWgpu
